import Mathlib

/-!
Verification development for the Pine Script syntax checker
(`tools/pine-syntax-checker.py`).

The Python source is shallowly embedded: a document's raw text is a
`List Char` (`content`), its line array a `List (List Char)` obtained by
splitting on `'\n'` (`splitNl`), mirroring `content.split('\n')`.
Each diagnostic append site of the Python code becomes one constructor of
the `Finding` type, carrying the data interpolated into the message.
Python's list `append`-based scans become folds over explicit state.
-/

namespace PineCheck

/-- Characters counted as whitespace by Python's `str.strip()` / `\s`
(ASCII scope; the scanned scripts are ASCII). -/
def isPySpace (c : Char) : Bool :=
  c == ' ' || c == '\t' || c == '\n' || c == '\r' || c == '\x0b' || c == '\x0c'

/-- Python `\w`: `[a-zA-Z0-9_]` (ASCII scope). -/
def isWordCh (c : Char) : Bool :=
  c.isAlpha || c.isDigit || c == '_'

/-- Python `str.strip()`: drop leading and trailing whitespace. -/
def pyStrip (s : List Char) : List Char :=
  ((s.dropWhile isPySpace).reverse.dropWhile isPySpace).reverse

/-- Python `str.startswith(p)`. -/
def startsWithS (p s : List Char) : Bool :=
  p.isPrefixOf s

/-- Python `p in s` (substring containment). -/
def containsSeq (pat : List Char) : List Char → Bool
  | [] => pat.isPrefixOf ([] : List Char)
  | c :: rest => pat.isPrefixOf (c :: rest) || containsSeq pat rest

/-- Python `content.split('\n')`. -/
def splitNl : List Char → List (List Char)
  | [] => [[]]
  | c :: rest =>
    if c == '\n' then [] :: splitNl rest
    else
      match splitNl rest with
      | l :: ls => (c :: l) :: ls
      | [] => [[c]]

/-- Python `str.count(sub)` for a single-character `sub` is the character
count; general non-overlapping substring count used for `content.count('for ')`. -/
def countSubstr (pat : List Char) : List Char → Nat
  | [] => 0
  | c :: rest =>
    if pat.isPrefixOf (c :: rest) then
      1 + countSubstr pat ((c :: rest).drop (max pat.length 1))
    else countSubstr pat rest
  termination_by s => s.length
  decreasing_by
    · simp only [List.length_drop, List.length_cons]; omega
    · simp only [List.length_cons]; omega

/-- `enumerate(lines, n)`: pair each element with its index starting at `n`. -/
def enumFrom (n : Nat) : List α → List (Nat × α)
  | [] => []
  | a :: as => (n, a) :: enumFrom (n + 1) as

/-- One constructor per diagnostic append site of the Python checker,
carrying the values interpolated into the f-string message. -/
inductive Finding where
  | unexpectedClosing (line : Nat) (c : Char)
  | mismatchedBrackets (closeLine : Nat) (openC : Char) (openLine : Nat) (closeC : Char)
  | unclosedBracket (line : Nat) (c : Char)
  | missingVersionDirective
  | outdatedVersion (v : Nat)
  | newerVersion (v : Nat)
  | undeterminedVersion
  | noIndicatorDecl
  | multilineComment
  | multilineArray
  | complexMultilineCall
  | incompleteTernary (line : Nat)
  | extraClosingParen (line : Nat) (startLine : Nat)
  | unclosedParen (line : Nat) (startLine : Nat)
  | reservedKeyword (kw : List Char)
  | invalidType (t : List Char)
  | mathFuncPrefix (line : Nat) (f : List Char)
  | formatTimeTime (line : Nat)
  | formatTimeTimeArr (line : Nat)
  | formatTimeGeneric (line : Nat)
  | invalidPlotParam (line : Nat)
  | randomFloat (line : Nat)
  | v6Migration (line : Nat) (oldF : List Char) (newF : List Char)
  | arrayNoInit
  | labelOps
  | boxOps
  | tableOps
  | entryNoExit
  | manyLoops (n : Nat)
  | suspiciousDivision (line : Nat)
  | securityNoNa
  | globalLabels
  | arrayBounds
  | loopVarBounds
  | alreadyDefined (line : Nat) (name : List Char) (firstLine : Nat)
  | undeclaredId (line : Nat) (name : List Char)
  | incompleteCall (line : Nat)
  | arrayAccessSyntax (line : Nat)
  | considerSemicolon (line : Nat) (text : List Char)
  | deprecatedFunc (f : List Char)
  | varDeclFound (text : List Char)
  | arrayOpsNoInit2
  | divisionFound
  | securityV6
  | entryNoRisk
  | matrixNoInit
  | varipUsage
  | manyConds
  | manyLoops2 (n : Nat)
  deriving DecidableEq, Repr

/-! ## Bracket matcher (source lines 44-64)

Python keeps the stack as a list with `append`/`pop`/`[-1]` at the end;
here the stack head is the top (most recently pushed entry). -/

/-- `brackets = {'(': ')', '[': ']', '{': '}'}` — the opening keys. -/
def isOpenB (c : Char) : Bool := c == '(' || c == '[' || c == '{'

/-- `brackets.values()`. -/
def isCloseB (c : Char) : Bool := c == ')' || c == ']' || c == '}'

/-- `brackets[opening]`. -/
def closeOf (c : Char) : Char :=
  if c == '(' then ')' else if c == '[' then ']' else '}'

structure BrState where
  errs : List Finding
  stack : List (Char × Nat)
  deriving DecidableEq, Repr

/-- One character of the bracket scan (lines 51-60). -/
def brStep (st : BrState) (i : Nat) (c : Char) : BrState :=
  if isOpenB c then { st with stack := (c, i) :: st.stack }
  else if isCloseB c then
    match st.stack with
    | [] => { st with errs := st.errs ++ [.unexpectedClosing i c] }
    | (o, ol) :: rest =>
      if closeOf o == c then { st with stack := rest }
      else { errs := st.errs ++ [.mismatchedBrackets i o ol c], stack := rest }
  else st

/-- All characters of all lines, each tagged with its 1-based line number,
in document order. -/
def docStream (lines : List (List Char)) : List (Char × Nat) :=
  (enumFrom 1 lines).flatMap (fun p => p.2.map (fun c => (c, p.1)))

/-- The full bracket scan over the document (lines 50-60). -/
def brScan (lines : List (List Char)) : BrState :=
  (docStream lines).foldl (fun s p => brStep s p.2 p.1) ⟨[], []⟩

/-- The bracket matcher's findings: scan errors plus, if the stack is
non-empty at end of document, one unclosed-bracket error for the
top-of-stack entry `stack[-1]` (lines 62-64). -/
def bracketFindings (lines : List (List Char)) : List Finding :=
  let st := brScan lines
  st.errs ++
    match st.stack with
    | [] => []
    | (c, l) :: _ => [.unclosedBracket l c]

/-- A character-with-line stream whose bracket characters are correctly
nested: every opening delimiter has a matching closer of the right kind,
non-bracket characters interleave freely. -/
inductive Balanced : List (Char × Nat) → Prop where
  | nil : Balanced []
  | skip (c : Char) (n : Nat) (w : List (Char × Nat))
      (hc : isOpenB c = false ∧ isCloseB c = false) (hw : Balanced w) :
      Balanced ((c, n) :: w)
  | node (o : Char) (n m : Nat) (u v : List (Char × Nat))
      (ho : isOpenB o = true) (hu : Balanced u) (hv : Balanced v) :
      Balanced ((o, n) :: u ++ (closeOf o, m) :: v)

theorem closeOf_props {o : Char} (ho : isOpenB o = true) :
    isOpenB (closeOf o) = false ∧ isCloseB (closeOf o) = true := by
  simp only [isOpenB, Bool.or_eq_true, beq_iff_eq] at ho
  rcases ho with (h | h) | h <;> subst h <;> decide

/-- Processing a balanced stream leaves the bracket-scan state unchanged. -/
theorem brFold_balanced {w : List (Char × Nat)} (hw : Balanced w) :
    ∀ st : BrState, w.foldl (fun s p => brStep s p.2 p.1) st = st := by
  induction hw with
  | nil => intro st; rfl
  | skip c n w hc hw ih =>
    intro st
    have hstep : brStep st n c = st := by
      simp [brStep, hc.1, hc.2]
    simp only [List.foldl_cons, hstep, ih]
  | node o n m u v ho hu hv ihu ihv =>
    intro st
    have hopen : brStep st n o = { st with stack := (o, n) :: st.stack } := by
      simp [brStep, ho]
    have hclose :
        brStep { st with stack := (o, n) :: st.stack } m (closeOf o) =
          st := by
      rcases closeOf_props ho with ⟨h1, h2⟩
      simp [brStep, h1, h2]
    simp only [List.foldl_cons, List.foldl_append, hopen, ihu, hclose, ihv]

/-- C6 helper: membership of unclosed-bracket findings is stable. -/
def isUnclosedB : Finding → Bool
  | .unclosedBracket _ _ => true
  | _ => false

/-- The per-character scan never appends an unclosed-bracket finding. -/
theorem brStep_no_unclosed (st : BrState) (i : Nat) (c : Char) :
    ((brStep st i c).errs.countP (fun f => isUnclosedB f)) =
      st.errs.countP (fun f => isUnclosedB f) := by
  unfold brStep
  split
  · rfl
  · split
    · split
      · simp [List.countP_append, isUnclosedB, List.countP_cons]
      · split
        · rfl
        · simp [List.countP_append, isUnclosedB, List.countP_cons]
    · rfl

theorem brFold_no_unclosed (w : List (Char × Nat)) :
    ∀ st : BrState,
      ((w.foldl (fun s p => brStep s p.2 p.1) st).errs.countP
          (fun f => isUnclosedB f)) =
        st.errs.countP (fun f => isUnclosedB f) := by
  induction w with
  | nil => intro st; rfl
  | cons p rest ih =>
    intro st
    simp only [List.foldl_cons, ih, brStep_no_unclosed]

/-- C6: for every document in which every opening delimiter among
`(`/`)`, `[`/`]`, `{`/`}` has a correctly nested matching closer (scanning
all characters of all lines in document order), the bracket matcher emits
zero Findings: no unexpected-closing, no mismatched, no unclosed. -/
theorem C6_balanced_doc_no_findings (lines : List (List Char))
    (h : Balanced (docStream lines)) : bracketFindings lines = [] := by
  have hscan : brScan lines = ⟨[], []⟩ := brFold_balanced h ⟨[], []⟩
  simp [bracketFindings, hscan]

theorem C6_witness :
    Balanced (docStream ["f(a[0])".data]) ∧ bracketFindings ["f(a[0])".data] = [] := by
  have hb : Balanced (docStream ["f(a[0])".data]) := by
    show Balanced [('f', 1), ('(', 1), ('a', 1), ('[', 1), ('0', 1), (']', 1), (')', 1)]
    exact Balanced.skip 'f' 1 _ (by decide)
      (Balanced.node '(' 1 1 [('a', 1), ('[', 1), ('0', 1), (']', 1)] [] (by decide)
        (Balanced.skip 'a' 1 _ (by decide)
          (Balanced.node '[' 1 1 [('0', 1)] [] (by decide)
            (Balanced.skip '0' 1 _ (by decide) Balanced.nil) Balanced.nil))
        Balanced.nil)
  exact ⟨hb, C6_balanced_doc_no_findings _ hb⟩

/-- C5: for every document in which the bracket scanner's stack is
non-empty at end of document, exactly one unclosed-bracket Error is
emitted, and it references the still-open top-of-stack entry (the most
recently pushed surviving opener), not all remaining entries. -/
theorem C5_unclosed_references_stack_top (lines : List (List Char)) (c : Char) (l : Nat)
    (h : (brScan lines).stack.head? = some (c, l)) :
    bracketFindings lines = (brScan lines).errs ++ [Finding.unclosedBracket l c] ∧
    (bracketFindings lines).countP (fun f => isUnclosedB f) = 1 := by
  have hcount : (brScan lines).errs.countP (fun f => isUnclosedB f) = 0 :=
    brFold_no_unclosed (docStream lines) ⟨[], []⟩
  rcases hstack : (brScan lines).stack with _ | ⟨⟨c', l'⟩, t⟩
  · rw [hstack] at h; exact absurd h (by simp)
  · rw [hstack] at h
    simp only [List.head?_cons, Option.some.injEq, Prod.mk.injEq] at h
    obtain ⟨hc, hl⟩ := h
    subst hc; subst hl
    constructor
    · simp only [bracketFindings, hstack]
    · simp only [bracketFindings, hstack, List.countP_append, hcount,
        List.countP_cons, List.countP_nil]
      simp [isUnclosedB]

theorem C5_witness :
    bracketFindings ["foo(a".data] = [Finding.unclosedBracket 1 '('] ∧
    (bracketFindings ["foo(a".data]).countP (fun f => isUnclosedB f) = 1 := by
  have h := C5_unclosed_references_stack_top ["foo(a".data] '(' 1 (by decide)
  exact ⟨by rw [h.1]; decide, h.2⟩

/-! ## Version directive check (source lines 66-79) -/

/-- Value of a maximal digit run, as `int(...)` of the captured group. -/
def natOfDigits (ds : List Char) : Nat :=
  ds.foldl (fun a c => a * 10 + (c.toNat - 48)) 0

/-- `re.search(r'//@version=(\d+)', content)`: the leftmost occurrence of
the literal `//@version=` followed by at least one digit; the captured
value is the maximal digit run (the regex `\d+` is greedy). -/
def searchVersion : List Char → Option Nat
  | [] => none
  | c :: rest =>
    if "//@version=".data.isPrefixOf (c :: rest) then
      let ds := ((c :: rest).drop 11).takeWhile Char.isDigit
      if ds.isEmpty then searchVersion rest else some (natOfDigits ds)
    else searchVersion rest

/-- Warnings of the version-directive check (lines 66-79): the
must-begin-with-directive warning, then the version-value analysis
(or the could-not-determine warning when the regex finds nothing). -/
def versionWarnings (content : List Char) : List Finding :=
  (if startsWithS "//@version".data (pyStrip content) then []
   else [.missingVersionDirective]) ++
  (match searchVersion content with
   | some v =>
     if v < 5 then [.outdatedVersion v]
     else if v > 6 then [.newerVersion v]
     else []
   | none => [.undeterminedVersion])

/-! ## Indicator/strategy declaration check (source lines 81-83) -/

/-- After the function name: `\s*` then a literal `(`. Deterministic since
`(` is not whitespace. -/
def afterWsParen (s : List Char) : Bool :=
  match s.dropWhile isPySpace with
  | '(' :: _ => true
  | _ => false

/-- Anchored match of `(?:indicator|strategy)\s*\(` at the start of `s`. -/
def indicAt (s : List Char) : Bool :=
  (startsWithS "indicator".data s && afterWsParen (s.drop 9)) ||
  (startsWithS "strategy".data s && afterWsParen (s.drop 8))

/-- `re.search(r'(?:indicator|strategy)\s*\(', content)`. -/
def hasIndicDecl : List Char → Bool
  | [] => false
  | c :: rest => indicAt (c :: rest) || hasIndicDecl rest

/-- The required-declaration check (lines 81-83). -/
def indicatorFindings (content : List Char) : List Finding :=
  if hasIndicDecl content then [] else [.noIndicatorDecl]

theorem indicAt_append_lit (t : List Char) :
    indicAt ("indicator(".data ++ t) = true := by
  have he : ("indicator(".data ++ t) = "indicator".data ++ ('(' :: t) := by
    rw [show "indicator(".data = "indicator".data ++ ['('] from rfl, List.append_assoc]
    rfl
  rw [he]
  have h1 : startsWithS "indicator".data ("indicator".data ++ ('(' :: t)) = true := by
    rw [startsWithS, List.isPrefixOf_iff_prefix]
    exact List.prefix_append _ _
  have h2 : afterWsParen (("indicator".data ++ ('(' :: t)).drop 9) = true := by
    have h9 : ("indicator".data ++ ('(' :: t)).drop 9 = '(' :: t := by
      rw [show (9 : Nat) = ("indicator".data).length from rfl, List.drop_left]
    have hsp : isPySpace '(' = false := by decide
    rw [h9]
    simp [afterWsParen, List.dropWhile, hsp]
  unfold indicAt
  rw [h1, h2]
  rfl

theorem hasIndicDecl_of_contains (s : List Char)
    (h : containsSeq "indicator(".data s = true) : hasIndicDecl s = true := by
  induction s with
  | nil => exact absurd h (by decide)
  | cons c rest ih =>
    rw [containsSeq, Bool.or_eq_true] at h
    rcases h with h | h
    · rw [List.isPrefixOf_iff_prefix] at h
      obtain ⟨t, ht⟩ := h
      rw [hasIndicDecl, ← ht, indicAt_append_lit, Bool.true_or]
    · rw [hasIndicDecl, ih h, Bool.or_true]

/-- C9 (amended): the check keys on the regex
`(?:indicator|strategy)\s*\(` — optional whitespace is allowed between the
name and `(`. If no such match exists anywhere, exactly one structural
Error is emitted; adding the substring `indicator(` anywhere removes it. -/
theorem C9_indicator_declaration_check (content : List Char) :
    (hasIndicDecl content = false →
      indicatorFindings content = [Finding.noIndicatorDecl]) ∧
    (containsSeq "indicator(".data content = true →
      indicatorFindings content = []) := by
  constructor
  · intro h; simp [indicatorFindings, h]
  · intro h; simp [indicatorFindings, hasIndicDecl_of_contains content h]

/-- C9 counterexample: `indicator ()` contains neither the substring
`indicator(` nor `strategy(`, yet the checker emits zero structural
Errors (the regex allows whitespace before the parenthesis), refuting
the claim that such documents always get exactly one structural Error. -/
theorem C9_counterexample :
    containsSeq "indicator(".data "indicator ()".data = false ∧
    containsSeq "strategy(".data "indicator ()".data = false ∧
    indicatorFindings "indicator ()".data = [] := by
  decide

theorem C9_witness :
    indicatorFindings "x = 1".data = [Finding.noIndicatorDecl] ∧
    indicatorFindings "indicator(x)".data = [] :=
  ⟨(C9_indicator_declaration_check "x = 1".data).1 (by decide),
   (C9_indicator_declaration_check "indicator(x)".data).2 (by decide)⟩

/-! ## Ternary completeness check (source lines 99-109) -/

/-- The incomplete-ternary check: for each 1-based line `i` whose trimmed
form ends with `?` with unequal `?`/`:` counts, the next line
`lines_list[i]` is inspected only under the guard `i < len(lines_list) - 1`. -/
def ternaryFindings (linesList : List (List Char)) : List Finding :=
  (enumFrom 1 linesList).flatMap (fun p =>
    let stripped := pyStrip p.2
    if (stripped.getLast? == some '?') &&
        !(stripped.countP (· == '?') == stripped.countP (· == ':')) then
      if p.1 < linesList.length - 1 then
        match linesList[p.1]? with
        | some nl =>
          let nls := pyStrip nl
          if !(nls.contains ':' || nls.contains '?') then
            [.incompleteTernary p.1]
          else []
        | none => []
      else []
    else [])

/-- C4: the guard `i < len(lines_list) - 1` skips the second-to-last line
even though a next line exists there. On `["x ?", "y"]` the code emits no
incomplete-ternary Error at line 1 (the claim and spec say it must);
with one more trailing line the same prefix does produce the Error,
confirming the guard is an off-by-one slip against the documented
look-ahead intent. -/
theorem C4_ternary_second_to_last_skipped :
    ternaryFindings ["x ?".data, "y".data] = [] ∧
    ternaryFindings ["x ?".data, "y".data, "z".data] =
      [Finding.incompleteTernary 1] := by
  decide

/-- C2 (amended): the version check only appends Warnings (never an
Error).  When the document holds no `//@version=<int>` directive
anywhere, it emits the could-not-determine Warning, preceded by the
missing-directive Warning when the trimmed content does not start with
`//@version` — so two Warnings in the common all-missing case, not one.
A found version `< 5` yields the outdated Warning, `> 6` the
newer-than-expected Warning, and a leading `//@version=6` yields no
version Warning at all. -/
theorem C2_version_check (content : List Char) :
    (searchVersion content = none →
      startsWithS "//@version".data (pyStrip content) = false →
      versionWarnings content =
        [Finding.missingVersionDirective, Finding.undeterminedVersion]) ∧
    (searchVersion content = none →
      startsWithS "//@version".data (pyStrip content) = true →
      versionWarnings content = [Finding.undeterminedVersion]) ∧
    (∀ v, searchVersion content = some v → v < 5 →
      Finding.outdatedVersion v ∈ versionWarnings content) ∧
    (∀ v, searchVersion content = some v → 6 < v →
      Finding.newerVersion v ∈ versionWarnings content) ∧
    (searchVersion content = some 6 →
      startsWithS "//@version".data (pyStrip content) = true →
      versionWarnings content = []) := by
  refine ⟨?_, ?_, ?_, ?_, ?_⟩
  · intro h1 h2; simp [versionWarnings, h1, h2]
  · intro h1 h2; simp [versionWarnings, h1, h2]
  · intro v h1 h2; simp [versionWarnings, h1, h2]
  · intro v h1 h2
    have h3 : ¬ v < 5 := by omega
    simp [versionWarnings, h1, h2, h3]
  · intro h1 h2; simp [versionWarnings, h1, h2]

/-- C2 counterexample: the empty document has no version directive
anywhere, yet the version check emits two Warnings (missing directive and
could-not-determine), not exactly one as claimed. -/
theorem C2_counterexample :
    containsSeq "//@version".data ([] : List Char) = false ∧
    searchVersion ([] : List Char) = none ∧
    versionWarnings ([] : List Char) =
      [Finding.missingVersionDirective, Finding.undeterminedVersion] := by
  decide

theorem C2_witness :
    versionWarnings "x = 1".data =
      [Finding.missingVersionDirective, Finding.undeterminedVersion] ∧
    versionWarnings "//@version junk".data = [Finding.undeterminedVersion] ∧
    Finding.outdatedVersion 4 ∈ versionWarnings "//@version=4".data ∧
    Finding.newerVersion 7 ∈ versionWarnings "//@version=7".data ∧
    versionWarnings "//@version=6".data = [] :=
  ⟨(C2_version_check "x = 1".data).1 (by decide) (by decide),
   (C2_version_check "//@version junk".data).2.1 (by decide) (by decide),
   (C2_version_check "//@version=4".data).2.2.1 4 (by decide) (by decide),
   (C2_version_check "//@version=7".data).2.2.2.1 7 (by decide) (by decide),
   (C2_version_check "//@version=6".data).2.2.2.2 (by decide) (by decide)⟩

/-! ## Multiline-call tracker (source lines 111-146) -/

structure MLState where
  openParens : Int
  inCall : Bool
  mstart : Nat
  errs : List Finding
  deriving DecidableEq, Repr

/-- One character of the paren-depth count (lines 124-131). -/
def mlChar (s : MLState) (i : Nat) (c : Char) : MLState :=
  if c == '(' then
    let s1 := { s with openParens := s.openParens + 1 }
    if !s1.inCall then { s1 with inCall := true, mstart := i } else s1
  else if c == ')' then { s with openParens := s.openParens - 1 }
  else s

/-- One line of the tracker (lines 116-142): skip comment/blank lines,
count parens over the stripped line, then the end-of-line if/elif chain. -/
def mlLine (s : MLState) (i : Nat) (line : List Char) : MLState :=
  let stripped := pyStrip line
  if startsWithS "//".data stripped || stripped.isEmpty then s
  else
    let s1 := stripped.foldl (fun a c => mlChar a i c) s
    if s1.inCall && s1.openParens == 0 then { s1 with inCall := false }
    else if s1.inCall && decide (s1.mstart < i) && decide (0 < s1.openParens) then s1
    else if s1.inCall && decide (s1.openParens < 0) then
      { s1 with errs := s1.errs ++ [.extraClosingParen i s1.mstart],
                inCall := false, openParens := 0 }
    else s1

def mlScan (linesList : List (List Char)) : MLState :=
  (enumFrom 1 linesList).foldl (fun s p => mlLine s p.1 p.2) ⟨0, false, 0, []⟩

/-- The tracker's findings: scan errors plus the end-of-document
unclosed-parenthesis error when depth remains positive (lines 144-146). -/
def mlFindings (linesList : List (List Char)) : List Finding :=
  let s := mlScan linesList
  s.errs ++
    (if 0 < s.openParens then [.unclosedParen linesList.length s.mstart] else [])

/-- C3 (amended): the extra-closing-parenthesis Error is emitted exactly
when, at the end of a processed non-comment non-blank line, the in-call
flag is set and the depth counter is negative; the Error references
`callStartLine`, depth is reset to 0 and the in-call flag cleared, and the
scan continues.  (When the flag is clear, or the depth only dips negative
transiently within a line, no Error is emitted — see the counterexample.) -/
theorem C3_extra_paren_requires_in_call (s : MLState) (i : Nat) (line : List Char)
    (h1 : (startsWithS "//".data (pyStrip line) || (pyStrip line).isEmpty) = false)
    (h2 : ((pyStrip line).foldl (fun a c => mlChar a i c) s).inCall = true)
    (h3 : ((pyStrip line).foldl (fun a c => mlChar a i c) s).openParens < 0) :
    mlLine s i line =
      { openParens := 0, inCall := false,
        mstart := ((pyStrip line).foldl (fun a c => mlChar a i c) s).mstart,
        errs := ((pyStrip line).foldl (fun a c => mlChar a i c) s).errs ++
          [Finding.extraClosingParen i
            ((pyStrip line).foldl (fun a c => mlChar a i c) s).mstart] } := by
  have hz : (((pyStrip line).foldl (fun a c => mlChar a i c) s).openParens == 0) = false := by
    simp only [beq_eq_false_iff_ne, ne_eq]
    omega
  have hpos : decide (0 < ((pyStrip line).foldl (fun a c => mlChar a i c) s).openParens) = false := by
    simp only [decide_eq_false_iff_not]
    omega
  have hneg : decide (((pyStrip line).foldl (fun a c => mlChar a i c) s).openParens < 0) = true := by
    simp only [decide_eq_true_eq]
    exact h3
  unfold mlLine
  simp only [h1, Bool.false_eq_true, if_false, h2, hz, hpos, hneg, Bool.true_and,
    Bool.and_false, Bool.false_and, Bool.and_true, if_true]

/-- C3 counterexample: on the single-line document `)` the running depth
becomes negative during the scan (the final state records depth -1), yet
the tracker emits no Error at all — the error branch is guarded by the
in-call flag, which is never set. -/
theorem C3_counterexample :
    mlFindings [")".data] = [] ∧ (mlScan [")".data]).openParens = -1 := by
  decide

theorem C3_witness :
    mlLine ⟨0, false, 0, []⟩ 1 ("f())".data) =
      ⟨0, false, 1, [Finding.extraClosingParen 1 1]⟩ := by
  rw [C3_extra_paren_requires_in_call ⟨0, false, 0, []⟩ 1 ("f())".data)
    (by decide) (by decide) (by decide)]
  decide

/-! ## A small regular-expression engine

The checker's remaining `re.search` / `re.match` uses are Boolean
(existence only).  For pure-regular patterns, Python's backtracking search
finds a match iff some substring is in the pattern's language, so a
Brzozowski-derivative membership test is an exact embedding of those
Boolean uses.  `\b` occurs only at the edges of the checker's patterns and
is handled positionally (word-character on exactly one side). -/

inductive RE where
  | emp
  | eps
  | cls (p : Char → Bool)
  | seq (a b : RE)
  | alt (a b : RE)
  | star (a : RE)

def nullable : RE → Bool
  | .emp => false
  | .eps => true
  | .cls _ => false
  | .seq a b => nullable a && nullable b
  | .alt a b => nullable a || nullable b
  | .star _ => true

def derivC : RE → Char → RE
  | .emp, _ => .emp
  | .eps, _ => .emp
  | .cls p, c => if p c then .eps else .emp
  | .seq a b, c =>
    if nullable a then .alt (.seq (derivC a c) b) (derivC b c)
    else .seq (derivC a c) b
  | .alt a b, c => .alt (derivC a c) (derivC b c)
  | .star a, c => .seq (derivC a c) (.star a)

def chrRE (c : Char) : RE := .cls (· == c)

def litRE : List Char → RE
  | [] => .eps
  | c :: rest => .seq (chrRE c) (litRE rest)

/-- `\s` (Python, ASCII scope). -/
def wsRE : RE := .cls isPySpace
/-- `\w`. -/
def wordRE : RE := .cls isWordCh
/-- `.` (no DOTALL: does not match a newline). -/
def dotRE : RE := .cls (fun c => !(c == '\n'))
/-- `\d`. -/
def digRE : RE := .cls Char.isDigit
def plusRE (r : RE) : RE := .seq r (.star r)

def isWordO : Option Char → Bool
  | none => false
  | some c => isWordCh c

/-- `\b` at the position between characters `l` and `r` (out of range =
non-word). -/
def bnd (l r : Option Char) : Bool := isWordO l != isWordO r

/-- Anchored existence: some prefix of `s` is in `r`'s language, with an
optional trailing `\b` test (`tb`); `last` is the character just before
the current position. -/
def matchHere (tb : Bool) : RE → Option Char → List Char → Bool
  | r, last, [] => nullable r && (!tb || bnd last none)
  | r, last, c :: rest =>
    (nullable r && (!tb || bnd last (some c))) ||
      matchHere tb (derivC r c) (some c) rest

/-- `re.search` existence: try an anchored match at every position, with
optional leading (`lb`) and trailing (`tb`) `\b` tests. -/
def reSearchGo (lb : Bool) (r : RE) (tb : Bool) : Option Char → List Char → Bool
  | prev, [] => (!lb || bnd prev none) && matchHere tb r prev []
  | prev, c :: rest =>
    ((!lb || bnd prev (some c)) && matchHere tb r prev (c :: rest)) ||
      reSearchGo lb r tb (some c) rest

def reSearchB (lb : Bool) (r : RE) (tb : Bool) (s : List Char) : Bool :=
  reSearchGo lb r tb none s

/-- `re.match` existence (anchored at the start). -/
def anchorRE (r : RE) (s : List Char) : Bool := matchHere false r none s

/-- Whole-string match (for patterns anchored with `^ ... $` via
`re.match` on a newline-free string). -/
def fullRE (r : RE) (s : List Char) : Bool := nullable (s.foldl derivC r)

/-- `re.search` existence for a pattern ending in `$` (match must reach
the end of the newline-free string), with optional leading `\b`. -/
def reSearchEndGo (lb : Bool) (r : RE) : Option Char → List Char → Bool
  | prev, [] => (!lb || bnd prev none) && fullRE r []
  | prev, c :: rest =>
    ((!lb || bnd prev (some c)) && fullRE r (c :: rest)) ||
      reSearchEndGo lb r (some c) rest

def reSearchEndB (lb : Bool) (r : RE) (s : List Char) : Bool :=
  reSearchEndGo lb r none s

/-! ## Missing `math.` prefix check (source lines 196-210) -/

def mathFunctions : List (List Char) :=
  ["sin".data, "cos".data, "tan".data, "asin".data, "acos".data, "atan".data,
   "sinh".data, "cosh".data, "tanh".data, "sqrt".data, "log".data,
   "log10".data, "exp".data, "pow".data, "abs".data, "round".data,
   "ceil".data, "floor".data, "max".data, "min".data]

/-- `r'\b(strategy|color|label|table|plot|fill)\.' + func`. -/
def mathSkipRE (f : List Char) : RE :=
  .seq (.alt (litRE "strategy".data) (.alt (litRE "color".data)
      (.alt (litRE "label".data) (.alt (litRE "table".data)
        (.alt (litRE "plot".data) (litRE "fill".data))))))
    (.seq (chrRE '.') (litRE f))

/-- The math-prefix check.  NOTE the source tests `pattern in line`, i.e.
substring containment of the literal regex text `\b{func}\s*\(`
(backslashes included) in the line — not `re.search` — before the other
conditions; this is embedded verbatim. -/
def mathFuncWarnings (lines : List (List Char)) : List Finding :=
  mathFunctions.flatMap (fun f =>
    let patText : List Char := '\\' :: 'b' :: (f ++ ['\\', 's', '*', '\\', '('])
    (enumFrom 1 lines).filterMap (fun p =>
      if containsSeq patText p.2 && !(startsWithS "//".data (pyStrip p.2)) &&
          !(containsSeq ("math.".data ++ f) p.2) then
        if !(reSearchB true (mathSkipRE f) false p.2) then
          some (.mathFuncPrefix p.1 f)
        else none
      else none))

/-- C1: the check compares the literal regex text `\bsin\s*\(` for
substring containment in the line (`pattern in line`) instead of running
`re.search`, so the line `y = sin(x)` — which contains no backslash —
produces zero math-prefix Warnings, against the claim and the spec's test
property (the `math.sin` line trivially also yields zero). -/
theorem C1_math_prefix_check_never_fires :
    mathFuncWarnings ["y = sin(x)".data] = [] ∧
    mathFuncWarnings ["y = math.sin(x)".data] = [] := by
  decide

/-! ## Watch-list forward-reference check (source lines 346-374) -/

def watchNames : List (List Char) :=
  ["minCycleLength".data, "maxCycleLength".data, "currCycleBarCount".data,
   "currCycleLow".data, "currCycleHigh".data]

/-- `r'^(\w+)\s*\([^)]*\)\s*=>'` (function-signature skip, `re.match`). -/
def arrowRE : RE :=
  .seq (plusRE wordRE) (.seq (.star wsRE) (.seq (chrRE '(')
    (.seq (.star (.cls (fun c => !(c == ')')))) (.seq (chrRE ')')
      (.seq (.star wsRE) (litRE "=>".data))))))

/-- `rf'\b{var_name}\s*[:=]'`. -/
def declRE1 (nm : List Char) : RE :=
  .seq (litRE nm) (.seq (.star wsRE) (.cls (fun c => c == ':' || c == '=')))

/-- `rf'\bvar\s+\w+\s+{var_name}\s*='`. -/
def declRE2 (nm : List Char) : RE :=
  .seq (litRE "var".data) (.seq (plusRE wsRE) (.seq (plusRE wordRE)
    (.seq (plusRE wsRE) (.seq (litRE nm) (.seq (.star wsRE) (chrRE '='))))))

/-- `for j in range(i)` with 1-based `i` scans raw lines `lines[0..i-1]`,
i.e. up to and including the current line. -/
def declaredBefore (lines : List (List Char)) (i : Nat) (nm : List Char) : Bool :=
  (lines.take i).any (fun lj =>
    reSearchB true (declRE1 nm) false lj || reSearchB true (declRE2 nm) false lj)

def undeclaredPerLine (lines : List (List Char)) (i : Nat) (line : List Char) :
    List Finding :=
  let stripped := pyStrip line
  if !stripped.isEmpty && !(startsWithS "//".data stripped) &&
      !(startsWithS "//@".data stripped) then
    if containsSeq "=>".data stripped && anchorRE arrowRE stripped then []
    else
      watchNames.filterMap (fun nm =>
        if reSearchB true (litRE nm) true stripped then
          if declaredBefore lines i nm then none
          else some (.undeclaredId i nm)
        else none)
  else []

def undeclaredFindings (lines : List (List Char)) : List Finding :=
  (enumFrom 1 lines).flatMap (fun p => undeclaredPerLine lines p.1 p.2)

theorem mem_enumFrom {α : Type} {xs : List α} {n k : Nat} {a : α} :
    (k, a) ∈ enumFrom n xs ↔ n ≤ k ∧ xs[k - n]? = some a := by
  induction xs generalizing n with
  | nil => simp [enumFrom]
  | cons x xs ih =>
    simp only [enumFrom, List.mem_cons, ih, Prod.mk.injEq]
    constructor
    · rintro (⟨hk, ha⟩ | ⟨hle, hget⟩)
      · subst hk; subst ha; simp
      · refine ⟨by omega, ?_⟩
        have hkn : k - n = (k - (n + 1)) + 1 := by omega
        rw [hkn]
        simpa using hget
    · rintro ⟨hle, hget⟩
      by_cases hk : k = n
      · subst hk
        simp only [Nat.sub_self, List.getElem?_cons_zero, Option.some.injEq] at hget
        exact Or.inl ⟨rfl, hget.symm⟩
      · right
        refine ⟨by omega, ?_⟩
        have hkn : k - n = (k - (n + 1)) + 1 := by omega
        rw [hkn] at hget
        simpa using hget

theorem undeclaredPerLine_shape {lines : List (List Char)} {k : Nat}
    {l : List Char} {f : Finding} (h : f ∈ undeclaredPerLine lines k l) :
    ∃ nm, f = Finding.undeclaredId k nm := by
  unfold undeclaredPerLine at h
  dsimp only at h
  split at h
  · split at h
    · exact absurd h (by simp)
    · obtain ⟨nm, _, heq⟩ := List.mem_filterMap.mp h
      split at heq
      · split at heq
        · exact absurd heq (by simp)
        · exact ⟨nm, (Option.some.injEq _ _ ▸ heq).symm⟩
      · exact absurd heq (by simp)
  · exact absurd h (by simp)

/-- C8 (amended): for each watch-list name, an undeclared-identifier Error
is emitted at a non-comment, non-signature line where the name occurs iff
neither declaration pattern matches any raw line up to AND INCLUDING the
current line (`for j in range(i)` with 1-based `i` covers the current
line, so a self-declaring line produces no Error); lines matching the
arrow-form function-signature pattern are skipped entirely. -/
theorem C8_watchlist_forward_reference :
    (∀ (lines : List (List Char)) (i : Nat) (line nm : List Char),
      (i, line) ∈ enumFrom 1 lines →
      (!(pyStrip line).isEmpty && !(startsWithS "//".data (pyStrip line)) &&
        !(startsWithS "//@".data (pyStrip line))) = true →
      (containsSeq "=>".data (pyStrip line) && anchorRE arrowRE (pyStrip line)) = false →
      nm ∈ watchNames →
      reSearchB true (litRE nm) true (pyStrip line) = true →
      declaredBefore lines i nm = false →
      Finding.undeclaredId i nm ∈ undeclaredFindings lines) ∧
    (∀ (lines : List (List Char)) (i : Nat) (line : List Char),
      (i, line) ∈ enumFrom 1 lines →
      (!(pyStrip line).isEmpty && !(startsWithS "//".data (pyStrip line)) &&
        !(startsWithS "//@".data (pyStrip line))) = true →
      (containsSeq "=>".data (pyStrip line) && anchorRE arrowRE (pyStrip line)) = true →
      ∀ nm, Finding.undeclaredId i nm ∉ undeclaredFindings lines) := by
  constructor
  · intro lines i line nm hmem helig harrow hw hsearch hdecl
    refine List.mem_flatMap.mpr ⟨(i, line), hmem, ?_⟩
    have hbody :
        undeclaredPerLine lines i line =
          watchNames.filterMap (fun nm =>
            if reSearchB true (litRE nm) true (pyStrip line) then
              if declaredBefore lines i nm then none
              else some (.undeclaredId i nm)
            else none) := by
      unfold undeclaredPerLine
      simp [helig, harrow]
    rw [hbody]
    refine List.mem_filterMap.mpr ⟨nm, hw, ?_⟩
    rw [hsearch, hdecl]
    simp
  · intro lines i line hmem helig harrow nm hcontra
    obtain ⟨p, hkmem, hfin⟩ := List.mem_flatMap.mp hcontra
    obtain ⟨nm', heq⟩ := undeclaredPerLine_shape hfin
    have hk : i = p.1 := by injection heq
    have a1 := (mem_enumFrom.mp hkmem).2
    have a2 := (mem_enumFrom.mp hmem).2
    rw [← hk] at a1
    rw [a2] at a1
    have hline : line = p.2 := by injection a1
    rw [← hk, ← hline] at hfin
    have hempty : undeclaredPerLine lines i line = [] := by
      unfold undeclaredPerLine
      simp [helig, harrow]
    rw [hempty] at hfin
    exact absurd hfin (List.not_mem_nil _)

theorem C8_counterexample :
    reSearchB true (litRE "minCycleLength".data) true
      (pyStrip "minCycleLength := 1".data) = true ∧
    startsWithS "//".data (pyStrip "minCycleLength := 1".data) = false ∧
    undeclaredFindings ["minCycleLength := 1".data] = [] := by
  decide

theorem C8_witness :
    Finding.undeclaredId 2 "minCycleLength".data ∈
      undeclaredFindings ["x = 1".data, "y = minCycleLength".data] ∧
    Finding.undeclaredId 1 "minCycleLength".data ∉
      undeclaredFindings ["f(x) => minCycleLength".data] :=
  ⟨C8_watchlist_forward_reference.1 ["x = 1".data, "y = minCycleLength".data] 2
      "y = minCycleLength".data "minCycleLength".data
      (by decide) (by decide) (by decide) (by decide) (by decide) (by decide),
   C8_watchlist_forward_reference.2 ["f(x) => minCycleLength".data] 1
      "f(x) => minCycleLength".data
      (by decide) (by decide) (by decide) "minCycleLength".data⟩

/-! ## Duplicate variable declarations (source lines 320-344)

The two capture regexes are embedded as maximal-munch parsers: in
`var\s+\w+\s+(\w+)\s*=` and `^\s*(\w+)\s*[:=]` the classes `\s` and `\w`
are disjoint and each is followed by a token from a different class, so
the greedy backtracking match is deterministic and equals maximal munch. -/

/-- `re.match(r'var\s+\w+\s+(\w+)\s*=', stripped)`, returning the capture. -/
def varDeclName (stripped : List Char) : Option (List Char) :=
  if startsWithS "var".data stripped then
    let r0 := stripped.drop 3
    let (ws1, r1) := r0.span isPySpace
    if ws1.isEmpty then none else
    let (w1, r2) := r1.span isWordCh
    if w1.isEmpty then none else
    let (ws2, r3) := r2.span isPySpace
    if ws2.isEmpty then none else
    let (w2, r4) := r3.span isWordCh
    if w2.isEmpty then none else
    match r4.dropWhile isPySpace with
    | '=' :: _ => some w2
    | _ => none
  else none

/-- `re.match(r'^\s*(\w+)\s*[:=]', stripped)`, returning the capture. -/
def plainAssignName (stripped : List Char) : Option (List Char) :=
  let r0 := stripped.dropWhile isPySpace
  let (w, r1) := r0.span isWordCh
  if w.isEmpty then none
  else
    match r1.dropWhile isPySpace with
    | c :: _ => if c == ':' || c == '=' then some w else none
    | [] => none

structure DupState where
  vars : List (List Char × Nat)
  errs : List Finding
  deriving DecidableEq, Repr

/-- Python-dict lookup (`var_name in declared_vars` /
`declared_vars[var_name]`); keys are inserted at most once, so
first-match association-list lookup coincides with dict lookup. -/
def lookupA : List (List Char × Nat) → List Char → Option Nat
  | [], _ => none
  | (k, v) :: rest, nm => if k = nm then some v else lookupA rest nm

/-- One line of the duplicate-declaration pass (lines 322-344). -/
def dupStep (s : DupState) (i : Nat) (line : List Char) : DupState :=
  let stripped := pyStrip line
  if !stripped.isEmpty && !(startsWithS "//".data stripped) then
    if startsWithS "var ".data stripped then
      match varDeclName stripped with
      | some nm =>
        match lookupA s.vars nm with
        | some fl => { s with errs := s.errs ++ [.alreadyDefined i nm fl] }
        | none => { s with vars := s.vars ++ [(nm, i)] }
      | none => s
    else
      match plainAssignName stripped with
      | some nm =>
        if (lookupA s.vars nm).isSome then s
        else { s with vars := s.vars ++ [(nm, i)] }
      | none => s
  else s

def dupScan (lines : List (List Char)) : DupState :=
  (enumFrom 1 lines).foldl (fun s p => dupStep s p.1 p.2) ⟨[], []⟩

def dupVarFindings (lines : List (List Char)) : List Finding :=
  (dupScan lines).errs

theorem lookupA_append_left {vars : List (List Char × Nat)} {nm : List Char}
    {l : Nat} (h : lookupA vars nm = some l) (ys : List (List Char × Nat)) :
    lookupA (vars ++ ys) nm = some l := by
  induction vars with
  | nil => exact absurd h (by simp [lookupA])
  | cons kv rest ih =>
    obtain ⟨k, v⟩ := kv
    rw [lookupA] at h
    rw [List.cons_append, lookupA]
    split at h
    · rw [if_pos (by assumption)]
      exact h
    · rw [if_neg (by assumption)]
      exact ih h

/-- A recorded first line survives one step of the pass. -/
theorem dupStep_preserves {s : DupState} {nm : List Char} {l : Nat}
    (h : lookupA s.vars nm = some l) (i : Nat) (line : List Char) :
    lookupA (dupStep s i line).vars nm = some l := by
  unfold dupStep
  dsimp only
  split
  · split
    · split
      · split
        · exact h
        · exact lookupA_append_left h _
      · exact h
    · split
      · split
        · exact h
        · exact lookupA_append_left h _
      · exact h
  · exact h

theorem dupFold_preserves (rest : List (Nat × List Char)) :
    ∀ (s : DupState) {nm : List Char} {l : Nat},
      lookupA s.vars nm = some l →
      lookupA ((rest.foldl (fun s p => dupStep s p.1 p.2) s)).vars nm = some l := by
  induction rest with
  | nil => intro s nm l h; exact h
  | cons p tail ih =>
    intro s nm l h
    exact ih _ (dupStep_preserves h p.1 p.2)

/-- C7: a second `var int x = ...` declaration produces an
already-defined Error referencing the first line; a recorded first line
never changes while processing any further lines (first occurrence wins);
hence any later `var` re-declaration of a recorded name emits an Error
referencing the originally recorded line. -/
theorem C7_duplicate_var_first_line_wins :
    dupVarFindings ["var int x = 1".data, "var int x = 2".data] =
      [Finding.alreadyDefined 2 "x".data 1] ∧
    (∀ (rest : List (Nat × List Char)) (s : DupState) (nm : List Char) (l : Nat),
      lookupA s.vars nm = some l →
      lookupA ((rest.foldl (fun s p => dupStep s p.1 p.2) s)).vars nm = some l) ∧
    (∀ (s : DupState) (i : Nat) (line nm : List Char) (fl : Nat),
      (!(pyStrip line).isEmpty && !(startsWithS "//".data (pyStrip line))) = true →
      startsWithS "var ".data (pyStrip line) = true →
      varDeclName (pyStrip line) = some nm →
      lookupA s.vars nm = some fl →
      dupStep s i line =
        { s with errs := s.errs ++ [Finding.alreadyDefined i nm fl] }) := by
  refine ⟨by decide, fun rest s nm l h => dupFold_preserves rest s h, ?_⟩
  intro s i line nm fl helig hvar hname hlook
  unfold dupStep
  simp [helig, hvar, hname, hlook]

theorem C7_witness :
    lookupA (([(2, "var int x = 2".data), (3, "var int x = 3".data)].foldl
      (fun s p => dupStep s p.1 p.2) ⟨[("x".data, 1)], []⟩)).vars "x".data = some 1 ∧
    dupStep ⟨[("x".data, 1)], []⟩ 5 "var int x = 9".data =
      ⟨[("x".data, 1)], [Finding.alreadyDefined 5 "x".data 1]⟩ := by
  constructor
  · exact C7_duplicate_var_first_line_wins.2.1
      [(2, "var int x = 2".data), (3, "var int x = 3".data)]
      ⟨[("x".data, 1)], []⟩ "x".data 1 (by decide)
  · rw [C7_duplicate_var_first_line_wins.2.2 ⟨[("x".data, 1)], []⟩ 5
      "var int x = 9".data "x".data 1 (by decide) (by decide) (by decide) (by decide)]
    rfl

/-! ## Remaining checks of `check_basic_syntax` / `check_common_issues`

`re.finditer` / `re.findall` sites need match extents, not just existence;
their patterns are deterministic (each greedy class is followed by a token
from a disjoint class), so they are embedded as maximal-munch anchored
matchers returning the consumed length, driven by a generic
non-overlapping left-to-right scanner. -/

/-- Generic `finditer`/`findall` scan: at each position (left to right),
try the anchored matcher `m`; on a match of length `k`, record the 1-based
line number of the match start and the matched text, then resume after the
match.  `useBnd` prepends a `\b` test to the pattern. -/
def reScanAll (m : List Char → Option Nat) (useBnd : Bool) :
    (s : List Char) → (prev : Option Char) → (ln : Nat) → List (Nat × List Char)
  | [], _, _ => []
  | c :: rest, prev, ln =>
    if !useBnd || bnd prev (some c) then
      match m (c :: rest) with
      | some k =>
        let k1 := max k 1
        let txt := (c :: rest).take k1
        (ln, txt) :: reScanAll m useBnd ((c :: rest).drop k1) txt.getLast?
          (ln + txt.countP (· == '\n'))
      | none => reScanAll m useBnd rest (some c) (ln + if c == '\n' then 1 else 0)
    else reScanAll m useBnd rest (some c) (ln + if c == '\n' then 1 else 0)
  termination_by s _ _ => s.length
  decreasing_by
    · simp only [List.length_drop, List.length_cons]; omega
    · simp only [List.length_cons]; omega
    · simp only [List.length_cons]; omega

/-- Anchored `/\s*\(\s*\w+\s*{op}\s*\w+\s*\)` (`op` is `-` or `+`),
returning the consumed length. -/
def matchDivOp (op : Char) (s : List Char) : Option Nat :=
  match s with
  | '/' :: r0 =>
    let (a1, r1) := r0.span isPySpace
    match r1 with
    | '(' :: r2 =>
      let (a2, r3) := r2.span isPySpace
      let (w1, r4) := r3.span isWordCh
      if w1.isEmpty then none else
      let (a3, r5) := r4.span isPySpace
      match r5 with
      | o :: r6 =>
        if o == op then
          let (a4, r7) := r6.span isPySpace
          let (w2, r8) := r7.span isWordCh
          if w2.isEmpty then none else
          let (a5, r9) := r8.span isPySpace
          match r9 with
          | ')' :: _ =>
            some (4 + a1.length + a2.length + w1.length + a3.length +
              a4.length + w2.length + a5.length)
          | _ => none
        else none
      | [] => none
    | _ => none
  | _ => none

/-- Anchored `/\s*\w+\s*$` with no `re.M`: `$` only matches at the end of
the whole text, so the pattern matches iff everything after the word run
is whitespace, consuming to the end. -/
def matchDivEnd (s : List Char) : Option Nat :=
  match s with
  | '/' :: r0 =>
    let (_, r1) := r0.span isPySpace
    let (w, r2) := r1.span isWordCh
    if w.isEmpty then none
    else if r2.all isPySpace then some s.length else none
  | _ => none

/-- Anchored `var\s+\w+\s*=` (after the scanner's `\b`), with length. -/
def matchVarDeclPat (s : List Char) : Option Nat :=
  if startsWithS "var".data s then
    let r0 := s.drop 3
    let (a1, r1) := r0.span isPySpace
    if a1.isEmpty then none else
    let (w, r2) := r1.span isWordCh
    if w.isEmpty then none else
    let (a2, r3) := r2.span isPySpace
    match r3 with
    | '=' :: _ => some (4 + a1.length + w.length + a2.length)
    | _ => none
  else none

/-- Anchored `if\s+\(` (after `\b`), with length. -/
def matchIfParen (s : List Char) : Option Nat :=
  if startsWithS "if".data s then
    let (a, r1) := (s.drop 2).span isPySpace
    if a.isEmpty then none else
    match r1 with
    | '(' :: _ => some (3 + a.length)
    | _ => none
  else none

/-- Anchored `for\s+` (after `\b`), with length. -/
def matchForWs (s : List Char) : Option Nat :=
  if startsWithS "for".data s then
    let (a, _) := (s.drop 3).span isPySpace
    if a.isEmpty then none else some (3 + a.length)
  else none

/-- `r'options=\s*\[[^\]]*\n'` (line 90). -/
def optionsArrRE : RE :=
  .seq (litRE "options=".data) (.seq (.star wsRE) (.seq (chrRE '[')
    (.seq (.star (.cls (fun c => !(c == ']')))) (chrRE '\n'))))

/-- `r'\w+\([^)]*\n.*\w+.*\n.*[^)]*\)'` (line 95). -/
def mlParamRE : RE :=
  .seq (plusRE wordRE) (.seq (chrRE '(')
    (.seq (.star (.cls (fun c => !(c == ')'))))
      (.seq (chrRE '\n') (.seq (.star dotRE) (.seq (plusRE wordRE)
        (.seq (.star dotRE) (.seq (chrRE '\n') (.seq (.star dotRE)
          (.seq (.star (.cls (fun c => !(c == ')')))) (chrRE ')'))))))))))

/-- `rf'\b{keyword}\s*='` (line 159), `\b` applied by the caller. -/
def kwAssignRE (kw : List Char) : RE :=
  .seq (litRE kw) (.seq (.star wsRE) (chrRE '='))

/-- `[^,]` class and `([^,]+,){n}` chains of the plotting patterns. -/
def nonComma : RE := .cls (fun c => !(c == ','))

def commaChain : Nat → RE → RE
  | 0, tail => tail
  | n + 1, tail => .seq (plusRE nonComma) (.seq (chrRE ',') (commaChain n tail))

/-- `r'hline\([^,]+,[^,]+,[^,]+,.*linestyle'`. -/
def hlineStyleRE : RE :=
  .seq (litRE "hline(".data)
    (commaChain 3 (.seq (.star dotRE) (litRE "linestyle".data)))

/-- `r'plot\([^,]+,[^,]+,.*linestyle'`. -/
def plotStyleRE : RE :=
  .seq (litRE "plot(".data)
    (commaChain 2 (.seq (.star dotRE) (litRE "linestyle".data)))

/-- `r'plotcandle\([^,]+,[^,]+,[^,]+,[^,]+,[^,]+,.*linestyle'`. -/
def plotcandleStyleRE : RE :=
  .seq (litRE "plotcandle(".data)
    (commaChain 5 (.seq (.star dotRE) (litRE "linestyle".data)))

/-- `r'str\.format_time\s*\(\s*time\b'` (trailing `\b` via `tb`). -/
def fmtTime1RE : RE :=
  .seq (litRE "str.format_time".data) (.seq (.star wsRE)
    (.seq (chrRE '(') (.seq (.star wsRE) (litRE "time".data))))

/-- `r'str\.format_time\s*\(\s*[^,)]*time\['`. -/
def fmtTime2RE : RE :=
  .seq (litRE "str.format_time".data) (.seq (.star wsRE)
    (.seq (chrRE '(') (.seq (.star wsRE)
      (.seq (.star (.cls (fun c => !(c == ',') && !(c == ')'))))
        (litRE "time[".data)))))

/-- `r'str\.format_time\s*\(\s*[^,)]*\)'`. -/
def fmtTime3RE : RE :=
  .seq (litRE "str.format_time".data) (.seq (.star wsRE)
    (.seq (chrRE '(') (.seq (.star wsRE)
      (.seq (.star (.cls (fun c => !(c == ',') && !(c == ')'))))
        (chrRE ')')))))

/-- `r'str\.format_time\s*\(\s*math\.round\('`. -/
def fmtTime4RE : RE :=
  .seq (litRE "str.format_time".data) (.seq (.star wsRE)
    (.seq (chrRE '(') (.seq (.star wsRE) (litRE "math.round(".data))))

/-- `r'for\s+\w+\s*=\s*\d+\s+to\s+\w+'` (line 312). -/
def loopForRE : RE :=
  .seq (litRE "for".data) (.seq (plusRE wsRE) (.seq (plusRE wordRE)
    (.seq (.star wsRE) (.seq (chrRE '=') (.seq (.star wsRE)
      (.seq (plusRE digRE) (.seq (plusRE wsRE) (.seq (litRE "to".data)
        (.seq (plusRE wsRE) (plusRE wordRE))))))))))

/-- `r'while\s+\w+\s*<'` (line 313). -/
def loopWhileRE : RE :=
  .seq (litRE "while".data) (.seq (plusRE wsRE)
    (.seq (plusRE wordRE) (.seq (.star wsRE) (chrRE '<'))))

/-- `r'\b\w+\s*\([^)]*$'` (line 382), `\b` and `$` via the caller. -/
def incompleteCallRE : RE :=
  .seq (plusRE wordRE) (.seq (.star wsRE)
    (.seq (chrRE '(') (.star (.cls (fun c => !(c == ')'))))))

/-- `r'\w+\[\s*\w+\s*\]\s*='` (line 390). -/
def arrAccessRE : RE :=
  .seq (plusRE wordRE) (.seq (chrRE '[') (.seq (.star wsRE)
    (.seq (plusRE wordRE) (.seq (.star wsRE) (.seq (chrRE ']')
      (.seq (.star wsRE) (chrRE '=')))))))

/-- `r'^\s*\w+\s*=.*\w+\s*\(.*\)\s*$'` (line 395), full match of the
stripped (newline-free) line. -/
def semi1RE : RE :=
  .seq (.star wsRE) (.seq (plusRE wordRE) (.seq (.star wsRE)
    (.seq (chrRE '=') (.seq (.star dotRE) (.seq (plusRE wordRE)
      (.seq (.star wsRE) (.seq (chrRE '(') (.seq (.star dotRE)
        (.seq (chrRE ')') (.star wsRE))))))))))

/-- `r'^\s*\w+\s*:=.*\w+\s*\(.*\)\s*$'` (line 396). -/
def semi2RE : RE :=
  .seq (.star wsRE) (.seq (plusRE wordRE) (.seq (.star wsRE)
    (.seq (litRE ":=".data) (.seq (.star dotRE) (.seq (plusRE wordRE)
      (.seq (.star wsRE) (.seq (chrRE '(') (.seq (.star dotRE)
        (.seq (chrRE ')') (.star wsRE))))))))))

/-- `r'^\s*var\s+\w+.*=.*\w+\s*\(.*\)\s*$'` (line 397). -/
def semi3RE : RE :=
  .seq (.star wsRE) (.seq (litRE "var".data) (.seq (plusRE wsRE)
    (.seq (plusRE wordRE) (.seq (.star dotRE) (.seq (chrRE '=')
      (.seq (.star dotRE) (.seq (plusRE wordRE) (.seq (.star wsRE)
        (.seq (chrRE '(') (.seq (.star dotRE)
          (.seq (chrRE ')') (.star wsRE))))))))))))

/-- Multiline comments `/* ... */` (lines 86-87). -/
def multilineCommentFindings (content : List Char) : List Finding :=
  if containsSeq "/*".data content || containsSeq "*/".data content then
    [.multilineComment]
  else []

/-- Multiline array in function call (lines 90-92). -/
def multilineArrayFindings (content : List Char) : List Finding :=
  if reSearchB false optionsArrRE false content then [.multilineArray] else []

/-- Complex multiline function call (lines 95-97). -/
def multilineParamWarnings (content : List Char) : List Finding :=
  if reSearchB false mlParamRE false content then [.complexMultilineCall] else []

/-- `reserved_keywords` (lines 149-155). -/
def reservedKeywords : List (List Char) :=
  ["range".data, "break".data, "continue".data, "delete".data, "new".data,
   "this".data, "super".data, "class".data, "interface".data, "extends".data,
   "implements".data, "public".data, "private".data, "protected".data,
   "static".data, "final".data, "const".data, "var".data, "if".data,
   "else".data, "for".data, "while".data, "switch".data, "case".data,
   "default".data, "try".data, "catch".data, "throw".data, "return".data,
   "function".data, "method".data, "property".data]

/-- Reserved keyword used as variable name (lines 157-161). -/
def reservedKwFindings (content : List Char) : List Finding :=
  reservedKeywords.filterMap (fun kw =>
    if reSearchB true (kwAssignRE kw) false content then
      some (.reservedKeyword kw)
    else none)

/-- `invalid_types` (lines 164-168).  The entry `r'string\[\]'` passes
through `re.escape`, so its pattern matches the literal ten characters
`string\[\]` (backslashes included). -/
def invalidTypes : List (List Char) :=
  ["int64".data, "uint".data, "uint8".data, "uint16".data, "uint32".data,
   "uint64".data, "byte".data, "double".data, "char".data,
   "string\\[\\]".data, "boolean".data, "Integer".data, "Float".data,
   "String".data, "Boolean".data]

/-- Invalid data type (lines 172-176): `rf'\b{re.escape(t)}\b'`. -/
def invalidTypeFindings (content : List Char) : List Finding :=
  invalidTypes.filterMap (fun t =>
    if reSearchB true (litRE t) true content then some (.invalidType t)
    else none)

/-- `invalid_plot_params` (lines 226-230). -/
def invalidPlotREs : List RE := [hlineStyleRE, plotStyleRE, plotcandleStyleRE]

/-- Invalid plotting parameter (lines 232-235); pattern-major order. -/
def plotParamFindings (lines : List (List Char)) : List Finding :=
  invalidPlotREs.flatMap (fun r =>
    (enumFrom 1 lines).filterMap (fun p =>
      if reSearchB false r false p.2 && !(startsWithS "//".data (pyStrip p.2)) then
        some (.invalidPlotParam p.1)
      else none))

/-- `random.float()` (lines 238-240). -/
def randomFloatFindings (lines : List (List Char)) : List Finding :=
  (enumFrom 1 lines).filterMap (fun p =>
    if containsSeq "random.float(".data p.2 &&
        !(startsWithS "//".data (pyStrip p.2)) then
      some (.randomFloat p.1)
    else none)

/-- `str.format_time()` checks (lines 214-223): if/elif chain per line. -/
def formatTimeWarnings (lines : List (List Char)) : List Finding :=
  (enumFrom 1 lines).flatMap (fun p =>
    if containsSeq "str.format_time(".data p.2 &&
        !(startsWithS "//".data (pyStrip p.2)) then
      if reSearchB false fmtTime1RE true p.2 then [.formatTimeTime p.1]
      else if reSearchB false fmtTime2RE false p.2 then [.formatTimeTimeArr p.1]
      else if reSearchB false fmtTime3RE false p.2 &&
          !(reSearchB false fmtTime4RE false p.2) then [.formatTimeGeneric p.1]
      else []
    else [])

/-- `v6_issues` (lines 243-248). -/
def v6Issues : List (List Char × List Char) :=
  [("security(".data, "request.security(".data),
   ("plotchar(".data, "plotshape(".data),
   ("fill(".data, "fill.new(".data),
   ("hline(".data, "hline.new(".data)]

/-- v6 migration hints (lines 250-253); pair-major order. -/
def v6IssueWarnings (lines : List (List Char)) : List Finding :=
  v6Issues.flatMap (fun pr =>
    (enumFrom 1 lines).filterMap (fun p =>
      if containsSeq pr.1 p.2 && !(startsWithS "//".data (pyStrip p.2)) then
        some (.v6Migration p.1 pr.1 pr.2)
      else none))

/-- `array_operations` (line 256). -/
def arrayOperations : List (List Char) :=
  ["array.push".data, "array.pop".data, "array.get".data, "array.set".data,
   "array.size".data]

/-- Array operations without `array.new()` (lines 256-259). -/
def arrayInitWarnings (content : List Char) : List Finding :=
  if arrayOperations.any (fun op => containsSeq op content) &&
      !(containsSeq "array.new".data content) then
    [.arrayNoInit]
  else []

def labelOpsL : List (List Char) :=
  ["label.new".data, "label.delete".data, "label.get_text".data,
   "label.set_text".data]
def boxOpsL : List (List Char) :=
  ["box.new".data, "box.delete".data, "box.get_left".data, "box.set_left".data]
def tableOpsL : List (List Char) :=
  ["table.new".data, "table.delete".data, "table.cell".data,
   "table.set_cell".data]

/-- Label/box/table declarations heuristics (lines 262-273). -/
def labelBoxTableWarnings (content : List Char) : List Finding :=
  (if labelOpsL.any (fun op => containsSeq op content) &&
      !(containsSeq "var label".data content) then [.labelOps] else []) ++
  (if boxOpsL.any (fun op => containsSeq op content) &&
      !(containsSeq "var box".data content) then [.boxOps] else []) ++
  (if tableOpsL.any (fun op => containsSeq op content) &&
      !(containsSeq "var table".data content) then [.tableOps] else [])

/-- Strategy entry without exit (lines 276-277). -/
def entryExitWarnings (content : List Char) : List Finding :=
  if containsSeq "strategy.entry".data content &&
      !(containsSeq "strategy.exit".data content) then
    [.entryNoExit]
  else []

/-- Loop count over `'for '` occurrences (lines 280-283). -/
def loopCountWarnings (content : List Char) : List Finding :=
  if containsSeq "for ".data content then
    let n := countSubstr "for ".data content
    if 10 < n then [.manyLoops n] else []
  else []

/-- Suspicious divisions (lines 286-296): `finditer`, one Warning per
match with the match-start line number; pattern-major order. -/
def divisionWarnings (content : List Char) : List Finding :=
  (reScanAll (matchDivOp '-') false content none 1).map
      (fun p => .suspiciousDivision p.1) ++
  (reScanAll (matchDivOp '+') false content none 1).map
      (fun p => .suspiciousDivision p.1) ++
  (reScanAll matchDivEnd false content none 1).map
      (fun p => .suspiciousDivision p.1)

/-- `request.security` without `na(` (lines 299-300). -/
def securityNaWarnings (content : List Char) : List Finding :=
  if containsSeq "request.security".data content &&
      !(containsSeq "na(".data content) then
    [.securityNoNa]
  else []

/-- `var ` together with `label.new` (lines 303-304). -/
def varLabelWarnings (content : List Char) : List Finding :=
  if containsSeq "var ".data content && containsSeq "label.new".data content then
    [.globalLabels]
  else []

/-- `array.get(` without `array.size(` (lines 307-308). -/
def arrayBoundsWarnings (content : List Char) : List Finding :=
  if containsSeq "array.get(".data content &&
      !(containsSeq "array.size(".data content) then
    [.arrayBounds]
  else []

/-- Loop-with-variable-bounds patterns (lines 311-318): one Warning per
matching pattern (the two appends share one message). -/
def loopPatternWarnings (content : List Char) : List Finding :=
  [loopForRE, loopWhileRE].filterMap (fun r =>
    if reSearchB false r false content then some Finding.loopVarBounds
    else none)

/-- Potential incomplete function call (lines 378-383). -/
def incompleteCallWarnings (lines : List (List Char)) : List Finding :=
  (enumFrom 1 lines).filterMap (fun p =>
    let stripped := pyStrip p.2
    if !stripped.isEmpty && !(startsWithS "//".data stripped) then
      if reSearchEndB true incompleteCallRE stripped &&
          !(stripped.getLast? == some ')') then
        some (.incompleteCall p.1)
      else none
    else none)

/-- Array access syntax (lines 386-391). -/
def arrayAccessWarnings (lines : List (List Char)) : List Finding :=
  (enumFrom 1 lines).filterMap (fun p =>
    let stripped := pyStrip p.2
    if !stripped.isEmpty && !(startsWithS "//".data stripped) then
      if reSearchB false arrAccessRE false stripped then
        some (.arrayAccessSyntax p.1)
      else none
    else none)

/-- Missing semicolons (lines 394-411): eligibility guards, then the
first matching pattern warns once per line (the inner `break`). -/
def semicolonWarnings (lines : List (List Char)) : List Finding :=
  (enumFrom 1 lines).filterMap (fun p =>
    let st := pyStrip p.2
    if !st.isEmpty && !(startsWithS "//".data st) && !(startsWithS "//@".data st) &&
        !(st.getLast? == some ',') && !(st.getLast? == some '{') &&
        !(st.getLast? == some '(') && !(st.getLast? == some '}') &&
        !(st.getLast? == some ')') && !(st.getLast? == some ':') &&
        !(startsWithS "if".data st) && !(startsWithS "else".data st) &&
        !(startsWithS "for".data st) then
      if fullRE semi1RE st then some (.considerSemicolon p.1 st)
      else if fullRE semi2RE st then some (.considerSemicolon p.1 st)
      else if fullRE semi3RE st then some (.considerSemicolon p.1 st)
      else none
    else none)

/-- `deprecated_funcs` (lines 420-423). -/
def deprecatedFuncs : List (List Char) :=
  ["security".data, "plotchar".data, "fill".data]

def deprecatedWarnings (content : List Char) : List Finding :=
  deprecatedFuncs.filterMap (fun f =>
    if containsSeq (f ++ "(".data) content then some (.deprecatedFunc f)
    else none)

/-- `re.findall(r'\bvar\s+\w+\s*=', content)` (lines 426-428): one
Warning per match, carrying the stripped matched text. -/
def varDeclWarnings (content : List Char) : List Finding :=
  (reScanAll matchVarDeclPat true content none 1).map
    (fun p => .varDeclFound (pyStrip p.2))

/-- `r'\barray\.\w+'` usage without `array.new` (lines 431-433). -/
def arrayUsageWarnings (content : List Char) : List Finding :=
  if reSearchB true (.seq (litRE "array.".data) (plusRE wordRE)) false content &&
      !(containsSeq "array.new".data content) then
    [.arrayOpsNoInit2]
  else []

/-- Division present anywhere (lines 436-437). -/
def divisionSimpleWarnings (content : List Char) : List Finding :=
  if containsSeq "/".data content then [.divisionFound] else []

/-- Version-conditioned v6 checks (lines 416-417, 440-452); the version
defaults to 5 when the directive regex finds nothing. -/
def v6Warnings (content : List Char) : List Finding :=
  if 6 ≤ (searchVersion content).getD 5 then
    (if containsSeq "request.security".data content then [.securityV6] else []) ++
    (if containsSeq "strategy.entry".data content &&
        !(containsSeq "strategy.risk".data content) then [.entryNoRisk] else []) ++
    (if containsSeq "matrix.".data content &&
        !(containsSeq "matrix.new".data content) then [.matrixNoInit] else [])
  else []

/-- `varip` / `var()` persistence (lines 455-456). -/
def varipWarnings (content : List Char) : List Finding :=
  if containsSeq "varip".data content || containsSeq "var()".data content then
    [.varipUsage]
  else []

/-- `len(re.findall(r'\bif\s+\(', content)) > 10` (lines 458-459). -/
def condCountWarnings (content : List Char) : List Finding :=
  if 10 < (reScanAll matchIfParen true content none 1).length then
    [.manyConds]
  else []

/-- `len(re.findall(r'\bfor\s+', content)) > 5` (lines 461-464). -/
def loopCount2Warnings (content : List Char) : List Finding :=
  let n := (reScanAll matchForWs true content none 1).length
  if 5 < n then [.manyLoops2 n] else []

/-! ## `check_basic_syntax` / `check_common_issues` / `check_file`
(source lines 20-42, 44-411, 413-464, 482-488)

The fatal I/O branches of `check_file` (file absent, undecodable) are
external collaborators per the CLI contract and are not modelled; the
validation path reads the loaded `content` and its `'\n'`-split lines.
Error appends and warning appends in source order. -/

def basicErrors (content : List Char) (lines : List (List Char)) : List Finding :=
  bracketFindings lines ++ indicatorFindings content ++
  multilineCommentFindings content ++ multilineArrayFindings content ++
  ternaryFindings lines ++ mlFindings lines ++ reservedKwFindings content ++
  invalidTypeFindings content ++ plotParamFindings lines ++
  randomFloatFindings lines ++ dupVarFindings lines ++ undeclaredFindings lines

def basicWarnings (content : List Char) (lines : List (List Char)) : List Finding :=
  versionWarnings content ++ multilineParamWarnings content ++
  mathFuncWarnings lines ++ formatTimeWarnings lines ++ v6IssueWarnings lines ++
  arrayInitWarnings content ++ labelBoxTableWarnings content ++
  entryExitWarnings content ++ loopCountWarnings content ++
  divisionWarnings content ++ securityNaWarnings content ++
  varLabelWarnings content ++ arrayBoundsWarnings content ++
  loopPatternWarnings content ++ incompleteCallWarnings lines ++
  arrayAccessWarnings lines ++ semicolonWarnings lines

/-- `check_common_issues` appends only warnings; it reads `content` only. -/
def commonWarnings (content : List Char) : List Finding :=
  deprecatedWarnings content ++ varDeclWarnings content ++
  arrayUsageWarnings content ++ divisionSimpleWarnings content ++
  v6Warnings content ++ varipWarnings content ++ condCountWarnings content ++
  loopCount2Warnings content

/-- The findings one `check_file` call appends: (errors, warnings). -/
def checkerRun (content : List Char) : List Finding × List Finding :=
  let lines := splitNl content
  (basicErrors content lines,
   basicWarnings content lines ++ commonWarnings content)

/-- The `PineSyntaxChecker` instance state: `self.errors`, `self.warnings`. -/
structure Checker where
  errors : List Finding
  warnings : List Finding
  deriving DecidableEq, Repr

/-- `__init__` (lines 20-22). -/
def initChecker : Checker := ⟨[], []⟩

/-- `check_file` (lines 24-42): appends both check methods' findings to
the instance lists and returns `len(self.errors) == 0`. -/
def checkFile (st : Checker) (content : List Char) : Checker × Bool :=
  let r := checkerRun content
  let st1 : Checker := ⟨st.errors ++ r.1, st.warnings ++ r.2⟩
  (st1, st1.errors.isEmpty)

/-- `get_summary` (lines 482-488): error count, warning count, passed. -/
def getSummary (st : Checker) : Nat × Nat × Bool :=
  (st.errors.length, st.warnings.length, st.errors.isEmpty)

/-- C10: the checker's error and warning lists are append-only across the
instance's lifetime — `check_file` never clears them, so a second call
accumulates the second file's findings after the first's, the summary's
counts and pass verdict reflect both runs combined, and once the instance
has recorded an Error every subsequent `check_file` call returns False
(and the errors stay non-empty). -/
theorem C10_checker_state_accumulates :
    (∀ (st : Checker) (c1 c2 : List Char),
      (checkFile st c1).1.errors = st.errors ++ (checkerRun c1).1 ∧
      (checkFile st c1).1.warnings = st.warnings ++ (checkerRun c1).2 ∧
      (checkFile (checkFile st c1).1 c2).1.errors =
        st.errors ++ (checkerRun c1).1 ++ (checkerRun c2).1 ∧
      (checkFile (checkFile st c1).1 c2).1.warnings =
        st.warnings ++ (checkerRun c1).2 ++ (checkerRun c2).2 ∧
      getSummary (checkFile (checkFile st c1).1 c2).1 =
        (st.errors.length + (checkerRun c1).1.length + (checkerRun c2).1.length,
         st.warnings.length + (checkerRun c1).2.length + (checkerRun c2).2.length,
         (st.errors ++ (checkerRun c1).1 ++ (checkerRun c2).1).isEmpty)) ∧
    (∀ (st : Checker) (c : List Char),
      st.errors ≠ [] →
      (checkFile st c).2 = false ∧ (checkFile st c).1.errors ≠ []) := by
  constructor
  · intro st c1 c2
    refine ⟨rfl, rfl, ?_, ?_, ?_⟩
    · simp [checkFile, List.append_assoc]
    · simp [checkFile, List.append_assoc]
    · simp only [checkFile, getSummary, List.append_assoc, List.length_append,
        Prod.mk.injEq]
      refine ⟨by omega, by omega, trivial⟩
  · intro st c h
    have hne : st.errors ++ (checkerRun c).1 ≠ [] := by
      intro hx
      exact h (List.append_eq_nil.mp hx).1
    constructor
    · show (st.errors ++ (checkerRun c).1).isEmpty = false
      obtain ⟨e, es, hee⟩ := List.exists_cons_of_ne_nil h
      rw [hee]
      simp
    · exact hne

theorem C10_witness :
    (checkFile initChecker []).1.errors = [Finding.noIndicatorDecl] ∧
    (checkFile (checkFile initChecker []).1 []).2 = false ∧
    (checkFile (checkFile initChecker []).1 []).1.errors =
      [Finding.noIndicatorDecl, Finding.noIndicatorDecl] := by
  refine ⟨?_, ?_, ?_⟩
  · rw [(C10_checker_state_accumulates.1 initChecker [] []).1]
    decide
  · exact (C10_checker_state_accumulates.2 (checkFile initChecker []).1 []
      (by decide)).1
  · rw [(C10_checker_state_accumulates.1 initChecker [] []).2.2.1]
    decide

end PineCheck
